import Mathlib

/-!
# Verification of the Altanian coffee-shop optimization core

Shallow embedding of the two algorithmic subsystems of the repository:

* the Optuna-backed ask/tell dial-in optimizer (`src/ai-engine/main.py`), and
* the K-means profile-clustering recommender
  (`src/ml_service/recommendations/parameter_optimizer.py` and the `/recommend`
  endpoint plus model loading in `src/ml_service/app.py`).

Conventions: Python floats are modelled as exact rationals (`ℚ`); values that the
code obtains via `math.sqrt`/`numpy.linalg.norm` live in `ℝ` with `Real.sqrt`.
Pandas/NumPy column operations are modelled by list operations on the columns.
-/

/-! ## Trials and studies (ai-engine)

The trial/study storage itself is provided by the Optuna library (an external
dependency, not part of `src/`), so its state machine is modelled from the spec:
a trial is created `PENDING` by `ask` and moves to `COMPLETE` with a score via
`tell`; `best_trial` is the maximum-score COMPLETE trial, earliest wins ties. -/

/-- State of a trial: `pending`, or `complete` carrying its score.
Modelled from the spec: the spec's Trial lifecycle (a score is present exactly
when the trial is COMPLETE). -/
inductive TState where
  | pending : TState
  | complete (score : ℚ) : TState
deriving DecidableEq, Repr

/-- One optimization trial: trial number, the suggested parameter vector
(grind, dose, time) and its state. -/
structure Trial where
  number : ℕ
  grind : ℚ
  dose : ℚ
  time : ℚ
  state : TState
deriving DecidableEq, Repr

/-- The score of a trial, present only when COMPLETE. -/
def Trial.scoreOf (t : Trial) : Option ℚ :=
  match t.state with
  | .pending => none
  | .complete s => some s

/-- A study's trial list, in creation order. -/
abbrev Study := List Trial

/-- Modelled from the spec: Optuna's `study.ask()` allocates the next trial
number and stores the trial as PENDING.  The suggested parameter values come
from the (external, stochastic) sampler, so they are inputs here. -/
def askStudy (g d tm : ℚ) (s : Study) : Study :=
  s ++ [⟨s.length, g, d, tm, .pending⟩]

/-- Modelled from the spec: the effect of `study.tell(trialNumber, score)` on
one stored trial — the PENDING trial with that number becomes COMPLETE with
the score; any other trial is untouched. -/
def tellUpdate (n : ℕ) (score : ℚ) (t : Trial) : Trial :=
  if t.number = n then
    match t.state with
    | .pending => { t with state := .complete score }
    | .complete _ => t
  else t

/-- Modelled from the spec: Optuna's `study.tell(trial, score)` records the
score of the PENDING trial with the given number, making it COMPLETE.  A
missing number or an already-COMPLETE trial leaves the study unchanged (the
endpoint in `src/ai-engine/main.py` guards both cases before calling `tell`). -/
def tellStudy (n : ℕ) (score : ℚ) (s : Study) : Study :=
  s.map (tellUpdate n score)

/-- Modelled from the spec: Optuna's `study.best_trial` for a maximize-direction
study: scan the trials and keep the COMPLETE trial with the highest score,
the earlier trial winning ties. -/
def bestTrial : Study → Option Trial
  | [] => none
  | t :: ts =>
    match t.scoreOf, bestTrial ts with
    | none, b => b
    | some _, none => some t
    | some st, some b => if st < (b.scoreOf).getD 0 then some b else some t

/-- One ask/tell operation on a study. -/
inductive StudyOp where
  | ask (g d tm : ℚ) : StudyOp
  | tell (n : ℕ) (score : ℚ) : StudyOp
deriving DecidableEq, Repr

/-- Apply one operation to a study. -/
def applyOp (s : Study) : StudyOp → Study
  | .ask g d tm => askStudy g d tm s
  | .tell n sc => tellStudy n sc s

/-- Run a sequence of ask/tell operations starting from the empty study
(studies are created with an empty trial history). -/
def runOps (ops : List StudyOp) : Study :=
  ops.foldl applyOp []

/-- Outcome of the `/optimize/report` endpoint (`report_result` in
`src/ai-engine/main.py`). -/
inductive ReportOutcome where
  | notFound : ReportOutcome
  | alreadyCompleted (existingScore : ℚ) : ReportOutcome
  | success (score : ℚ) : ReportOutcome
deriving DecidableEq, Repr

/-- Embeds `report_result` (`src/ai-engine/main.py` lines 271–313): find the
trial by number (first match in the trial list); 404 if absent; if it is
already COMPLETE, return `already_completed` with the existing score without
touching the study; otherwise `tell` the score. -/
def reportResult (n : ℕ) (score : ℚ) (s : Study) : ReportOutcome × Study :=
  match s.find? (fun t => t.number = n) with
  | none => (.notFound, s)
  | some t =>
    match t.state with
    | .complete sc => (.alreadyCompleted sc, s)
    | .pending => (.success score, tellStudy n score s)

/-- Status label of the `/optimize/status` endpoint. -/
inductive StudyStatus where
  | notStarted : StudyStatus
  | active : StudyStatus
deriving DecidableEq, Repr

/-- Response of the `/optimize/status` endpoint (fields not needed by the
claims — recent trials, messages, timestamps — are not modelled). -/
structure StatusResponse where
  status : StudyStatus
  totalTrials : ℕ
deriving DecidableEq, Repr

/-- Embeds `get_optimization_status` (`src/ai-engine/main.py` lines 324–379):
a context whose study does not exist (`optuna.load_study` raises `KeyError`)
reports `not_started` with 0 trials; an existing study reports `active` with
its trial count. -/
def getStatus (st : Option Study) : StatusResponse :=
  match st with
  | none => ⟨.notStarted, 0⟩
  | some s => ⟨.active, s.length⟩

/-- Errors surfaced by the ai-engine endpoints. -/
inductive ApiError where
  | notFound : ApiError
  | internalError : ApiError
deriving DecidableEq, Repr

/-- Python's `round(x, 1)` modelled as rounding to one decimal place.
(Ties: Python rounds half to even; no theorem below depends on tie behavior.) -/
def roundTo1 (q : ℚ) : ℚ := (round (10 * q) : ℤ) / 10

/-- Best-parameters payload of `/optimize/best/{bean_id}`. -/
structure BestResponse where
  trialNumber : ℕ
  grind : ℚ
  dose : ℚ
  time : ℚ
  score : ℚ
deriving DecidableEq, Repr

/-- Embeds `get_best_parameters` (`src/ai-engine/main.py` lines 390–436):
404 when the study does not exist or has zero trials; otherwise the best
trial's parameters rounded to one decimal place.  (When trials exist but none
is COMPLETE, Optuna's `best_trial` raises and the endpoint answers 500; that
path is `internalError` here.) -/
def getBestParameters (st : Option Study) : Except ApiError BestResponse :=
  match st with
  | none => .error .notFound
  | some s =>
    if s.length = 0 then .error .notFound
    else
      match bestTrial s with
      | none => .error .internalError
      | some b =>
        .ok ⟨b.number, roundTo1 b.grind, roundTo1 b.dose, roundTo1 b.time,
          (b.scoreOf).getD 0⟩

/-! ## Historical shots and the clustering recommender (ml_service) -/

/-- A 4-dimensional taste vector (sweetness, acidity, bitterness, body). -/
structure Vec4 where
  v0 : ℚ
  v1 : ℚ
  v2 : ℚ
  v3 : ℚ
deriving DecidableEq, Repr

/-- Squared Euclidean distance between taste vectors (nearest-centroid
comparisons in sklearn are made on squared distances, which order the same
way as the distances themselves). -/
def sqDist (a b : Vec4) : ℚ :=
  (a.v0 - b.v0) ^ 2 + (a.v1 - b.v1) ^ 2 + (a.v2 - b.v2) ^ 2 + (a.v3 - b.v3) ^ 2

/-- Euclidean distance between taste vectors, as `numpy.linalg.norm` computes it. -/
noncomputable def distR (a b : Vec4) : ℝ := Real.sqrt ((sqDist a b : ℚ) : ℝ)

/-- One historical shot as used by `ClusteringRecommender`: taste profile,
overall quality, the eight aggregated brewing parameters, and the cluster
label attached by `fit`. -/
structure Shot where
  sweetness : ℚ
  acidity : ℚ
  bitterness : ℚ
  body : ℚ
  shotQuality : ℚ
  grindSize : ℚ
  extractionTime : ℚ
  temperature : ℚ
  inWeight : ℚ
  pressure : ℚ
  preInfusionTime : ℚ
  usedWDT : Bool
  usedPuckScreen : Bool
  cluster : ℕ
deriving DecidableEq, Repr

/-- A fitted `ClusteringRecommender`: the stored historical shots (with their
cluster labels), the cluster centroids in normalized taste space, and the
`StandardScaler` parameters (per-dimension mean and scale). -/
structure Fitted where
  shots : List Shot
  centroids : List Vec4
  scalerMean : Vec4
  scalerScale : Vec4
deriving DecidableEq, Repr

/-- `StandardScaler.transform` on one taste vector: `(x - mean) / scale`
componentwise. -/
def scaleVec (r : Fitted) (v : Vec4) : Vec4 :=
  ⟨(v.v0 - r.scalerMean.v0) / r.scalerScale.v0,
   (v.v1 - r.scalerMean.v1) / r.scalerScale.v1,
   (v.v2 - r.scalerMean.v2) / r.scalerScale.v2,
   (v.v3 - r.scalerMean.v3) / r.scalerScale.v3⟩

/-- Index of the first minimal element, as `numpy.argmin` returns it. -/
def argminAux : List ℚ → ℕ → ℕ → ℚ → ℕ
  | [], _, bi, _ => bi
  | x :: xs, i, bi, bv =>
    if x < bv then argminAux xs (i + 1) i x else argminAux xs (i + 1) bi bv

/-- `numpy.argmin` over a list of distances (0 on the empty list). -/
def argminIdx : List ℚ → ℕ
  | [] => 0
  | x :: xs => argminAux xs 1 0 x

/-- `KMeans.predict` on one (already scaled) taste vector: the index of the
nearest centroid. -/
def predictCluster (r : Fitted) (scaled : Vec4) : ℕ :=
  argminIdx (r.centroids.map fun c => sqDist scaled c)

/-- The three-tier quality-shot selection of `ClusteringRecommender.recommend`
(`parameter_optimizer.py` lines 114–125): shots with quality ≥ 7; if none,
quality ≥ 6; if still none, the whole cluster. -/
def selectQuality (clusterShots : List Shot) : List Shot :=
  let best7 := clusterShots.filter fun s => (7 : ℚ) ≤ s.shotQuality
  if best7 = [] then
    let best6 := clusterShots.filter fun s => (6 : ℚ) ≤ s.shotQuality
    if best6 = [] then clusterShots else best6
  else best7

/-- Mean of a list of rationals (`Series.mean`; the empty case is junk — the
code never averages an empty selection thanks to the three-tier fallback). -/
def listMean (l : List ℚ) : ℚ := l.sum / l.length

/-- A DataFrame column restricted to the selected rows, tagged with its dtype:
float/int (`numCol`), bool (`boolCol`) or object/categorical (`catCol`). -/
inductive Column where
  | numCol (vals : List ℚ) : Column
  | boolCol (vals : List Bool) : Column
  | catCol (vals : List String) : Column
deriving DecidableEq, Repr

/-- An aggregated parameter value: a number or a categorical label. -/
inductive AggVal where
  | num (q : ℚ) : AggVal
  | cat (s : String) : AggVal
deriving DecidableEq, Repr

/-- Number of occurrences of a value in a column. -/
def countIn (l : List String) (s : String) : ℕ := (l.filter fun v => v = s).length

/-- Smallest string of `c :: cs` under the lexicographic order. -/
def minString (c : String) (cs : List String) : String :=
  cs.foldl (fun a b => if b < a then b else a) c

/-- `Series.mode()[0]` of pandas: among the values occurring most often,
the smallest one (pandas returns the modal values sorted ascending). -/
def pandasMode (l : List String) : String :=
  match l.filter (fun s => l.all fun v => countIn l v ≤ countIn l s) with
  | [] => ""
  | c :: cs => minString c cs

/-- The per-column aggregation of `ClusteringRecommender.recommend`
(`parameter_optimizer.py` lines 129–136): float/int *and bool* dtypes take
`float(column.mean())` — a bool column averages its 0/1 values — while other
(categorical) dtypes take `column.mode()[0]`. -/
def aggregateColumn : Column → AggVal
  | .numCol l => .num (listMean l)
  | .boolCol l => .num (listMean (l.map fun b => if b then (1 : ℚ) else 0))
  | .catCol l => .cat (pandasMode l)

/-- The parameter columns the recommender aggregates
(`self.parameter_features`). -/
def parameterFeatures : List String :=
  ["grindSize", "extractionTime", "temperature", "inWeight",
   "pressure", "preInfusionTime", "usedWDT", "usedPuckScreen"]

/-- The parameter columns of the selected shots, with their dtypes as the
historical-shot schema defines them (six numeric columns, two bool flags). -/
def tableOf (shots : List Shot) : List (String × Column) :=
  [("grindSize", .numCol (shots.map Shot.grindSize)),
   ("extractionTime", .numCol (shots.map Shot.extractionTime)),
   ("temperature", .numCol (shots.map Shot.temperature)),
   ("inWeight", .numCol (shots.map Shot.inWeight)),
   ("pressure", .numCol (shots.map Shot.pressure)),
   ("preInfusionTime", .numCol (shots.map Shot.preInfusionTime)),
   ("usedWDT", .boolCol (shots.map Shot.usedWDT)),
   ("usedPuckScreen", .boolCol (shots.map Shot.usedPuckScreen))]

/-- The aggregation loop of `recommend`: every parameter feature present as a
column is aggregated according to its dtype. -/
def recommendedParams (table : List (String × Column)) : List (String × AggVal) :=
  parameterFeatures.filterMap fun p =>
    (table.lookup p).map fun col => (p, aggregateColumn col)

/-- User constraints: per-parameter `[min, max]` clamps.  (`fixedParams` is
accepted by the code but its branch is a `pass` — it changes nothing.) -/
structure Constraints where
  paramRanges : List (String × (ℚ × ℚ))
deriving DecidableEq, Repr

/-- `_apply_constraints`: clamp each constrained numeric parameter with
`np.clip(value, lo, hi) = min(max(value, lo), hi)`. -/
def applyConstraints (params : List (String × AggVal)) (cons : Constraints) :
    List (String × AggVal) :=
  params.map fun pv =>
    match cons.paramRanges.lookup pv.1, pv.2 with
    | some (lo, hi), .num q => (pv.1, .num (min (max q lo) hi))
    | _, _ => pv

/-- Sample variance with pandas' default `ddof=1`:
`Σ (x - mean)² / (n - 1)`.  Faithful for `n ≥ 2`; pandas yields `NaN` for
`n ≤ 1`, so theorems about it assume at least two rows. -/
def sampleVar (l : List ℚ) : ℚ :=
  (l.map fun x => (x - listMean l) ^ 2).sum / ((l.length - 1 : ℕ) : ℚ)

/-- `Series.std()` (sample standard deviation, ddof = 1). -/
noncomputable def sampleStd (l : List ℚ) : ℝ := Real.sqrt ((sampleVar l : ℚ) : ℝ)

/-- Embeds `_calculate_confidence` (`parameter_optimizer.py` lines 202–222):
quality ratio with a `max(len, 1)` guard, cluster consistency from the sample
std of the cluster's qualities, distance of the scaled target from the centroid
indexed by the cluster label of the cluster's first row, combined 0.4/0.3/0.3
and clamped into [0, 1] by `max(0.0, min(1.0, ·))`. -/
noncomputable def calcConfidence (bestShots clusterShots : List Shot)
    (centers : List Vec4) (targetScaled : Vec4) : ℝ :=
  let qualityRatio : ℝ := (bestShots.length : ℝ) / ((max clusterShots.length 1 : ℕ) : ℝ)
  let clusterConsistency : ℝ := 1 - sampleStd (clusterShots.map Shot.shotQuality) / 10
  let clusterCenter : Vec4 :=
    match clusterShots.head? with
    | some s => centers.getD s.cluster ⟨0, 0, 0, 0⟩
    | none => ⟨0, 0, 0, 0⟩
  let distanceConfidence : ℝ := max 0 (1 - distR targetScaled clusterCenter / 2)
  max 0 (min 1 (0.4 * qualityRatio + 0.3 * clusterConsistency + 0.3 * distanceConfidence))

/-- The confidence formula as the spec states it, for refinement comparison:
`0.4·(|qualityShots|/|clusterShots|) + 0.3·(1 − stdDev(quality)/10)
 + 0.3·max(0, 1 − ‖target − clusterCentroid‖/2)`, clamped to [0, 1]. -/
noncomputable def confidenceFormula (nQuality nCluster : ℕ) (qualities : List ℚ)
    (target centroid : Vec4) : ℝ :=
  max 0 (min 1 (0.4 * ((nQuality : ℝ) / (nCluster : ℝ))
    + 0.3 * (1 - sampleStd qualities / 10)
    + 0.3 * max 0 (1 - distR target centroid / 2)))

/-- Expected outcome: mean taste profile and quality of the selected shots. -/
structure Outcome where
  sweetness : ℚ
  acidity : ℚ
  bitterness : ℚ
  body : ℚ
  shotQuality : ℚ
deriving DecidableEq, Repr

/-- The `expected_outcome` block of `recommend`. -/
def expectedOutcomeOf (shots : List Shot) : Outcome :=
  ⟨listMean (shots.map Shot.sweetness),
   listMean (shots.map Shot.acidity),
   listMean (shots.map Shot.bitterness),
   listMean (shots.map Shot.body),
   listMean (shots.map Shot.shotQuality)⟩

/-- A target profile below the HTTP layer: a Python dict from dimension name
to numeric value, read with `target_profile.get(dim, 5)`. -/
def profileGet (tp : List (String × ℚ)) (dim : String) : ℚ :=
  (tp.lookup dim).getD 5

/-- The target taste vector built by `recommend` and `_calculate_taste_distance`:
each of the four dimensions read from the dict with default 5. -/
def targetQuad (tp : List (String × ℚ)) : Vec4 :=
  ⟨profileGet tp "sweetness", profileGet tp "acidity",
   profileGet tp "bitterness", profileGet tp "body"⟩

/-- The result object of `ClusteringRecommender.recommend` (the `explanation`
dict, pure string formatting, is not modelled). -/
structure Recommendation where
  primary : List (String × AggVal)
  confidence : ℝ
  expectedOutcome : Outcome
  distanceFromTarget : ℝ
  clusterSize : ℕ
  qualityShotsCount : ℕ

/-- Body of `ClusteringRecommender.recommend` (`parameter_optimizer.py` lines
94–177) as a function of the target taste vector: scale the target, assign the
nearest cluster, select quality shots, aggregate and constrain parameters,
compute confidence, expected outcome and distance from target. -/
noncomputable def recommendCoreAux (r : Fitted) (cons : Constraints) (tq : Vec4) :
    Recommendation :=
  let targetScaled := scaleVec r tq
  let cid := predictCluster r targetScaled
  let clusterShots := r.shots.filter fun s => s.cluster = cid
  let bestShots := selectQuality clusterShots
  let params := applyConstraints (recommendedParams (tableOf bestShots)) cons
  let conf := calcConfidence bestShots clusterShots r.centroids targetScaled
  let eo := expectedOutcomeOf bestShots
  let dist := distR ⟨eo.sweetness, eo.acidity, eo.bitterness, eo.body⟩ tq
  ⟨params, conf, eo, dist, clusterShots.length, bestShots.length⟩

/-- `ClusteringRecommender.recommend` on a target-profile dict: the dict is
consulted only through `get(dim, 5)` on the four taste dimensions. -/
noncomputable def recommendCore (r : Fitted) (cons : Constraints)
    (tp : List (String × ℚ)) : Recommendation :=
  recommendCoreAux r cons (targetQuad tp)

/-- The not-fitted guard of `recommend` (`raise ValueError("Model not fitted")`
when `historical_shots is None`). -/
inductive CoreError where
  | notFitted : CoreError
deriving DecidableEq, Repr

/-- `recommend` including the fitted check: callers below the HTTP layer get
an error only when the model is not fitted. -/
noncomputable def recommendChecked (r : Option Fitted) (cons : Constraints)
    (tp : List (String × ℚ)) : Except CoreError Recommendation :=
  match r with
  | none => .error .notFitted
  | some rec' => .ok (recommendCore rec' cons tp)

/-! ## Model loading and the `/recommend` HTTP endpoint (ml_service/app.py) -/

/-- Embeds the recommender-initialization decision of `load_models`
(`src/ml_service/app.py` lines 86–100): the recommendation engine is fitted
only when historical data was found and `len(historical_df) > 10`; otherwise
the data is deemed insufficient and the recommender stays unavailable.
(The fit itself delegates to sklearn's KMeans; `ClusteringRecommender.fit`
performs no size validation of its own.) -/
def recommenderAvailable : Option (List Shot) → Bool
  | some l => decide (10 < l.length)
  | none => false

/-- A JSON value of a `targetProfile` entry.  Python's `isinstance(v, (int,
float))` accepts `bool` (a subclass of `int`), with `True = 1`, `False = 0`. -/
inductive JVal where
  | num (q : ℚ) : JVal
  | str (s : String) : JVal
  | bool (b : Bool) : JVal
deriving DecidableEq, Repr

/-- The numeric reading of a JSON value under Python's `isinstance(v, (int,
float))` test; `none` means the value fails that test. -/
def JVal.asNum : JVal → Option ℚ
  | .num q => some q
  | .bool b => some (if b then 1 else 0)
  | .str _ => none

/-- The per-entry check of the `/recommend` endpoint: the value is an
`int`/`float` (bools included) and lies in [1, 10]. -/
def valOk (v : JVal) : Bool :=
  match v.asNum with
  | some q => decide (1 ≤ q ∧ q ≤ 10)
  | none => false

/-- Validation errors of the `/recommend` endpoint. -/
inductive RecError where
  | notAvailable : RecError
  | profileRequired : RecError
  | missingDims (dims : List String) : RecError
  | invalidValue (dim : String) : RecError
deriving DecidableEq, Repr

/-- The four required taste dimensions. -/
def requiredTasteDims : List String := ["sweetness", "acidity", "bitterness", "body"]

/-- Embeds the validation of the `/recommend` endpoint (`src/ml_service/app.py`
lines 529–548): a falsy (absent or empty) `targetProfile` is "required"; then
the four dimensions must be present; then *every* entry of the dict must pass
the numeric range check, the first offender being reported. -/
def validateTargetProfile (tp : List (String × JVal)) : Option RecError :=
  if tp = [] then some .profileRequired
  else
    let missing := requiredTasteDims.filter fun d => !((tp.map Prod.fst).contains d)
    if missing = [] then
      match tp.find? (fun kv => !(valOk kv.2)) with
      | some kv => some (.invalidValue kv.1)
      | none => none
    else some (.missingDims missing)

/-- Embeds the `/recommend` endpoint (`src/ml_service/app.py` lines 472–586):
503 when the recommender is unavailable, then target-profile validation, and
only then the call into the fitted recommender (validated entries are numeric,
so the dict converts losslessly). -/
noncomputable def recommendEndpoint (r : Option Fitted) (cons : Constraints)
    (tp : List (String × JVal)) : Except RecError Recommendation :=
  match r with
  | none => .error .notAvailable
  | some rec' =>
    match validateTargetProfile tp with
    | some e => .error e
    | none =>
      .ok (recommendCore rec' cons
        (tp.filterMap fun kv => (kv.2.asNum).map fun q => (kv.1, q)))

/-! ## Concrete values used by witnesses and counterexamples -/

/-- A nominal historical shot. -/
def exShot : Shot :=
  ⟨5, 5, 5, 5, 7, 12, 28, 93, 18, 9, 0, true, false, 0⟩

/-- Exactly ten historical shots. -/
def tenShots : List Shot := List.replicate 10 exShot

/-- Eleven historical shots. -/
def elevenShots : List Shot := List.replicate 11 exShot

/-- A study whose only trial is already COMPLETE with score 7. -/
def c2Study : Study := [⟨0, 12, 18, 30, .complete 7⟩]

/-! ## Theorems for the frozen claims -/

/-- **C6**: the quality-shot selection of `recommend` first takes the cluster's
shots with quality ≥ 7, falls back to ≥ 6 when that is empty, and finally to
the entire cluster; it never errors, and it is nonempty whenever the cluster
is nonempty. -/
theorem selectQuality_three_tier (c : List Shot) :
    (selectQuality c =
      if c.filter (fun s => (7 : ℚ) ≤ s.shotQuality) = [] then
        if c.filter (fun s => (6 : ℚ) ≤ s.shotQuality) = [] then c
        else c.filter (fun s => (6 : ℚ) ≤ s.shotQuality)
      else c.filter (fun s => (7 : ℚ) ≤ s.shotQuality)) ∧
    (c ≠ [] → selectQuality c ≠ []) := by
  refine ⟨rfl, fun hc => ?_⟩
  unfold selectQuality
  by_cases h7 : c.filter (fun s => (7 : ℚ) ≤ s.shotQuality) = []
  · by_cases h6 : c.filter (fun s => (6 : ℚ) ≤ s.shotQuality) = []
    · simpa [h7, h6] using hc
    · simp [h7, h6]
  · simp [h7]

/-- Witness for C6 at a singleton cluster. -/
theorem selectQuality_three_tier_witness :
    [exShot] ≠ [] ∧ selectQuality [exShot] ≠ [] :=
  ⟨by decide, (selectQuality_three_tier [exShot]).2 (by decide)⟩

/-- **C2**: reporting a result for a trial that is already COMPLETE returns
`already_completed` with the existing score and leaves the study (hence the
stored score) unchanged. -/
theorem reportResult_already_completed (s : Study) (n : ℕ) (x : ℚ) (t : Trial)
    (sc : ℚ) (hf : s.find? (fun u => u.number = n) = some t)
    (hc : t.state = .complete sc) :
    reportResult n x s = (.alreadyCompleted sc, s) := by
  simp [reportResult, hf, hc]

/-- Witness for C2: telling score 9 to the COMPLETE trial 0 of `c2Study`
answers `already_completed 7` and does not touch the study. -/
theorem reportResult_already_completed_witness :
    c2Study.find? (fun u => u.number = 0) = some ⟨0, 12, 18, 30, .complete 7⟩ ∧
    reportResult 0 9 c2Study = (.alreadyCompleted 7, c2Study) :=
  ⟨by decide,
   reportResult_already_completed c2Study 0 9 ⟨0, 12, 18, 30, .complete 7⟩ 7
     (by decide) rfl⟩

/-- **C3 counterexample**: with exactly 10 historical shots — which the claim
deems sufficient (`len(shots) ≥ 10`) — `load_models` does *not* initialize the
recommendation engine, because its gate is `len(historical_df) > 10`. -/
theorem recommenderAvailable_ten_refutes :
    10 ≤ tenShots.length ∧ recommenderAvailable (some tenShots) = false := by
  constructor
  · decide
  · decide

/-- **C3 (amended)**: the recommendation engine is initialized exactly when
historical data is present with strictly more than 10 shots (at least 11);
with 10 or fewer shots the data is treated as insufficient and the recommender
stays unavailable. -/
theorem recommenderAvailable_gate :
    (∀ l : List Shot, recommenderAvailable (some l) = true ↔ 10 < l.length) ∧
    recommenderAvailable none = false :=
  ⟨fun l => by simp [recommenderAvailable], rfl⟩

/-- Witness for C3 (amended) at an 11-shot dataset. -/
theorem recommenderAvailable_gate_witness :
    recommenderAvailable (some elevenShots) = true :=
  (recommenderAvailable_gate.1 elevenShots).mpr (by decide)

/-- **C7 counterexample**: a context whose study exists with zero trials (a
study is persisted by `get_or_create_study` before its first `ask` completes)
is reported `active`, not `not_started`, refuting the claim for that input. -/
theorem getStatus_empty_study_refutes :
    (getStatus (some ([] : Study))).status = .active ∧
    (getStatus (some ([] : Study))).status ≠ .notStarted := by
  constructor
  · rfl
  · decide

/-- **C7 (amended)**: a context with no study gets `not_started` with
`totalTrials = 0`; an existing study is always reported `active` (with
`totalTrials = 0` when empty); `GetBestParameters` fails with `NotFound` both
when the study is absent and when it has zero trials. -/
theorem status_and_best_on_empty :
    getStatus none = ⟨.notStarted, 0⟩ ∧
    (∀ s : Study, (getStatus (some s)).status = .active) ∧
    (getStatus (some ([] : Study))).totalTrials = 0 ∧
    getBestParameters none = .error .notFound ∧
    (∀ s : Study, s.length = 0 → getBestParameters (some s) = .error .notFound) := by
  refine ⟨rfl, fun s => rfl, rfl, rfl, fun s hs => ?_⟩
  simp [getBestParameters, hs]

/-- Witness for C7 (amended) at the empty study. -/
theorem status_and_best_on_empty_witness :
    ([] : Study).length = 0 ∧ getBestParameters (some []) = .error .notFound :=
  ⟨rfl, status_and_best_on_empty.2.2.2.2 [] rfl⟩

/-! ### Target-profile validation lemmas (shared by the endpoint claims) -/

/-- If the profile is nonempty and a required dimension is absent, validation
stops with the missing-dimensions error listing that dimension. -/
lemma validate_missing_spec (tp : List (String × JVal)) (hne : tp ≠ [])
    (d : String) (hd : d ∈ requiredTasteDims)
    (habs : (tp.map Prod.fst).contains d = false) :
    ∃ ds, validateTargetProfile tp = some (.missingDims ds) ∧ d ∈ ds := by
  have hdm : d ∈ requiredTasteDims.filter fun x => !((tp.map Prod.fst).contains x) :=
    List.mem_filter.mpr ⟨hd, by simp only [habs, Bool.not_false]⟩
  have hmiss : requiredTasteDims.filter (fun x => !((tp.map Prod.fst).contains x)) ≠ [] :=
    List.ne_nil_of_mem hdm
  refine ⟨_, ?_, hdm⟩
  simp only [validateTargetProfile, if_neg hne, if_neg hmiss]

/-- If all four dimensions are present and some entry of the profile fails the
numeric range check, validation stops with an invalid-value error. -/
lemma validate_invalid_spec (tp : List (String × JVal))
    (hdims : ∀ d ∈ requiredTasteDims, (tp.map Prod.fst).contains d = true)
    (kv : String × JVal) (hkv : kv ∈ tp) (hbad : valOk kv.2 = false) :
    ∃ d, validateTargetProfile tp = some (.invalidValue d) := by
  have hne : tp ≠ [] := List.ne_nil_of_mem hkv
  have hmiss : requiredTasteDims.filter (fun x => !((tp.map Prod.fst).contains x)) = [] :=
    List.filter_eq_nil_iff.mpr fun d hd => by
      simp only [hdims d hd, Bool.not_true]
      decide
  have hfind : (tp.find? fun kv => !(valOk kv.2)).isSome :=
    List.find?_isSome.mpr ⟨kv, hkv, by simp only [hbad, Bool.not_false]⟩
  obtain ⟨kv', hkv'⟩ := Option.isSome_iff_exists.mp hfind
  refine ⟨kv'.1, ?_⟩
  simp only [validateTargetProfile, if_neg hne, hmiss, hkv']
  simp

/-- Any validation error short-circuits the endpoint: the response is that
error regardless of the fitted recommender, so no clustering work happens. -/
lemma endpoint_error_of_validate (tp : List (String × JVal)) (e : RecError)
    (h : validateTargetProfile tp = some e) (r : Fitted) (cons : Constraints) :
    recommendEndpoint (some r) cons tp = .error e := by
  simp [recommendEndpoint, h]

/-- **C8 counterexample**: an empty `targetProfile` omits all four taste
dimensions, yet the endpoint rejects it with the "targetProfile is required"
error, not with `MissingTasteDimension`. -/
theorem emptyProfile_not_missingDims :
    validateTargetProfile [] = some .profileRequired ∧
    ∀ ds, validateTargetProfile [] ≠ some (.missingDims ds) := by
  refine ⟨rfl, fun ds h => ?_⟩
  rw [show validateTargetProfile [] = some .profileRequired from rfl] at h
  cases h

/-- **C8 (amended)**: an absent or empty `targetProfile` fails with the
profile-required error; a nonempty profile missing one of the four taste
dimensions fails with `MissingTasteDimension`; a profile with all four
dimensions but some entry non-numeric or outside [1, 10] fails with
`OutOfRangeTasteValue`; and in every failure case the endpoint returns the
validation error without performing any clustering work (the response does not
depend on the fitted recommender). -/
theorem validation_before_clustering (tp : List (String × JVal)) :
    (tp = [] → validateTargetProfile tp = some .profileRequired) ∧
    (tp ≠ [] → ∀ d ∈ requiredTasteDims, (tp.map Prod.fst).contains d = false →
      ∃ ds, validateTargetProfile tp = some (.missingDims ds) ∧ d ∈ ds) ∧
    ((∀ d ∈ requiredTasteDims, (tp.map Prod.fst).contains d = true) →
      ∀ kv ∈ tp, valOk kv.2 = false →
      ∃ d, validateTargetProfile tp = some (.invalidValue d)) ∧
    (∀ e, validateTargetProfile tp = some e →
      ∀ r₁ r₂ : Fitted, ∀ cons,
        recommendEndpoint (some r₁) cons tp = .error e ∧
        recommendEndpoint (some r₁) cons tp = recommendEndpoint (some r₂) cons tp) := by
  refine ⟨fun h => by simp [validateTargetProfile, h],
    fun hne d hd habs => validate_missing_spec tp hne d hd habs,
    fun hdims kv hkv hbad => validate_invalid_spec tp hdims kv hkv hbad,
    fun e he r₁ r₂ cons => ⟨endpoint_error_of_validate tp e he r₁ cons, ?_⟩⟩
  rw [endpoint_error_of_validate tp e he r₁ cons, endpoint_error_of_validate tp e he r₂ cons]

/-- Witness for C8 (amended): a profile carrying only `sweetness` is rejected
with the missing-dimensions error naming `acidity`. -/
theorem validation_before_clustering_witness :
    ([(("sweetness" : String), JVal.num 5)] ≠ []) ∧
    (([("sweetness", JVal.num 5)].map Prod.fst).contains "acidity" = false) ∧
    ∃ ds, validateTargetProfile [("sweetness", JVal.num 5)] =
      some (.missingDims ds) ∧ "acidity" ∈ ds :=
  ⟨by decide, by decide,
   (validation_before_clustering [("sweetness", JVal.num 5)]).2.1 (by decide)
     "acidity" (by decide) (by decide)⟩

/-- **C10**: the [1, 10] numeric range check of the `/recommend` endpoint runs
over every key of `targetProfile`, so an extra, non-taste key whose value is
non-numeric or out of range is also rejected with a validation error. -/
theorem rangeCheck_covers_extra_keys (tp : List (String × JVal)) (k : String)
    (v : JVal) (hmem : (k, v) ∈ tp) (hnot : k ∉ requiredTasteDims)
    (hdims : ∀ d ∈ requiredTasteDims, (tp.map Prod.fst).contains d = true)
    (hbad : valOk v = false) :
    ∃ d, validateTargetProfile tp = some (.invalidValue d) :=
  validate_invalid_spec tp hdims (k, v) hmem hbad

/-- Witness for C10: a valid profile plus `extraKey ↦ "x"` is rejected. -/
theorem rangeCheck_covers_extra_keys_witness :
    ((("extraKey" : String), JVal.str "x") ∈
      [("sweetness", JVal.num 5), ("acidity", JVal.num 5),
       ("bitterness", JVal.num 5), ("body", JVal.num 5),
       ("extraKey", JVal.str "x")]) ∧
    ("extraKey" ∉ requiredTasteDims) ∧
    valOk (JVal.str "x") = false ∧
    ∃ d, validateTargetProfile
      [("sweetness", JVal.num 5), ("acidity", JVal.num 5),
       ("bitterness", JVal.num 5), ("body", JVal.num 5),
       ("extraKey", JVal.str "x")] = some (.invalidValue d) :=
  ⟨by decide, by decide, by decide,
   rangeCheck_covers_extra_keys _ "extraKey" (JVal.str "x") (by decide)
     (by decide) (by decide) (by decide)⟩

/-! ### Dict-default lemmas for the core recommender (C9) -/

/-- Appending a default entry for a key that is absent from the dict does not
change any `get(dim, 5)` read. -/
lemma profileGet_append_default (tp : List (String × ℚ)) (d dim : String)
    (habs : tp.lookup d = none) :
    profileGet (tp ++ [(d, 5)]) dim = profileGet tp dim := by
  induction tp with
  | nil =>
    cases hdim : (dim == d) <;> simp [profileGet, List.lookup, hdim]
  | cons kv rest ih =>
    obtain ⟨k, v⟩ := kv
    simp only [List.lookup] at habs
    cases hdk : (d == k) with
    | true => rw [hdk] at habs; cases habs
    | false =>
      rw [hdk] at habs
      unfold profileGet
      simp only [List.cons_append, List.lookup]
      cases hdim : (dim == k) with
      | true => rfl
      | false => exact ih habs

/-- The target taste vector is unchanged by filling an absent dimension with
its default value 5. -/
lemma targetQuad_append_default (tp : List (String × ℚ)) (d : String)
    (habs : tp.lookup d = none) :
    targetQuad (tp ++ [(d, 5)]) = targetQuad tp := by
  unfold targetQuad
  rw [profileGet_append_default tp d "sweetness" habs,
    profileGet_append_default tp d "acidity" habs,
    profileGet_append_default tp d "bitterness" habs,
    profileGet_append_default tp d "body" habs]

/-- **C9**: below the HTTP layer, an absent taste dimension is read as the
default 5 (in cluster assignment and in the distance-from-target computation
alike): filling the missing dimension with 5 changes nothing, and the call
succeeds rather than failing. -/
theorem recommend_defaults_missing (r : Fitted) (cons : Constraints)
    (tp : List (String × ℚ)) (d : String) (hd : d ∈ requiredTasteDims)
    (habs : tp.lookup d = none) :
    targetQuad (tp ++ [(d, 5)]) = targetQuad tp ∧
    predictCluster r (scaleVec r (targetQuad (tp ++ [(d, 5)]))) =
      predictCluster r (scaleVec r (targetQuad tp)) ∧
    recommendChecked (some r) cons tp =
      .ok (recommendCore r cons (tp ++ [(d, 5)])) := by
  have hq := targetQuad_append_default tp d habs
  refine ⟨hq, by rw [hq], ?_⟩
  simp only [recommendChecked, recommendCore, hq]

/-- A small fitted recommender for the C9 witness. -/
def c9Fitted : Fitted := ⟨[exShot], [⟨0, 0, 0, 0⟩], ⟨0, 0, 0, 0⟩, ⟨1, 1, 1, 1⟩⟩

/-- A target profile that supplies only `sweetness`. -/
def c9Profile : List (String × ℚ) := [("sweetness", 8)]

/-- Witness for C9: with `body` absent, the call succeeds and is the same as
with `body ↦ 5`. -/
theorem recommend_defaults_missing_witness :
    ("body" ∈ requiredTasteDims) ∧ (c9Profile.lookup "body" = none) ∧
    recommendChecked (some c9Fitted) ⟨[]⟩ c9Profile =
      .ok (recommendCore c9Fitted ⟨[]⟩ (c9Profile ++ [("body", 5)])) :=
  ⟨by decide, by decide,
   (recommend_defaults_missing c9Fitted ⟨[]⟩ c9Profile "body" (by decide)
     (by decide)).2.2⟩

/-- **C5**: under the conditions the code runs in (the assigned cluster holds
the rows labelled with its id, at least two of them so the sample std is
defined), the confidence is exactly the spec's formula
`0.4·(|qualityShots|/|clusterShots|) + 0.3·(1 − stdDev(quality)/10)
 + 0.3·max(0, 1 − ‖target − centroid‖/2)` clamped to [0, 1]. -/
theorem calcConfidence_formula (best cluster : List Shot) (centers : List Vec4)
    (target : Vec4) (cid : ℕ) (h2 : 2 ≤ cluster.length)
    (hcl : ∀ s ∈ cluster, s.cluster = cid) :
    calcConfidence best cluster centers target =
      confidenceFormula best.length cluster.length (cluster.map Shot.shotQuality)
        target (centers.getD cid ⟨0, 0, 0, 0⟩) := by
  obtain ⟨s0, rest, rfl⟩ : ∃ s0 rest, cluster = s0 :: rest := by
    cases cluster with
    | nil => exact absurd h2 (by decide)
    | cons a as => exact ⟨a, as, rfl⟩
  have h0 : s0.cluster = cid := hcl s0 (List.mem_cons_self _ _)
  have hmax : max (s0 :: rest).length 1 = (s0 :: rest).length :=
    Nat.max_eq_left (by simp [List.length_cons])
  simp only [calcConfidence, confidenceFormula, List.head?_cons, hmax, h0]

/-- Witness for C5 on a two-shot cluster. -/
theorem calcConfidence_formula_witness :
    (2 ≤ ([exShot, exShot] : List Shot).length) ∧
    (∀ s ∈ ([exShot, exShot] : List Shot), s.cluster = 0) ∧
    calcConfidence [exShot] [exShot, exShot] [⟨0, 0, 0, 0⟩] ⟨0, 0, 0, 0⟩ =
      confidenceFormula 1 2 ([exShot, exShot].map Shot.shotQuality)
        ⟨0, 0, 0, 0⟩ ([⟨0, 0, 0, 0⟩].getD 0 ⟨0, 0, 0, 0⟩) :=
  ⟨by decide, by decide,
   calcConfidence_formula [exShot] [exShot, exShot] [⟨0, 0, 0, 0⟩]
     ⟨0, 0, 0, 0⟩ 0 (by decide) (by decide)⟩

/-! ### Mode lemmas for the parameter aggregation (C4) -/

/-- The running minimum stays inside the scanned list. -/
lemma minString_mem (cs : List String) : ∀ c, minString c cs ∈ c :: cs := by
  induction cs with
  | nil => intro c; simp [minString]
  | cons b bs ih =>
    intro c
    simp only [minString, List.foldl_cons] at ih ⊢
    rcases List.mem_cons.mp (ih (if b < c then b else c)) with h1 | h1
    · rw [h1]
      by_cases hbc : b < c
      · simp [hbc]
      · simp [hbc]
    · exact List.mem_cons_of_mem _ (List.mem_cons_of_mem _ h1)

/-- The running minimum is a lower bound for the scanned list. -/
lemma minString_le (cs : List String) : ∀ c, ∀ v ∈ c :: cs, minString c cs ≤ v := by
  induction cs with
  | nil =>
    intro c v hv
    rcases List.mem_cons.mp hv with rfl | hv'
    · simp [minString]
    · cases hv'
  | cons b bs ih =>
    intro c v hv
    simp only [minString, List.foldl_cons] at ih ⊢
    have hstep : (if b < c then b else c) ≤ c ∧ (if b < c then b else c) ≤ b := by
      by_cases hbc : b < c
      · exact ⟨by simp [hbc, le_of_lt hbc], by simp [hbc]⟩
      · exact ⟨by simp [hbc], by simp [hbc, le_of_not_lt hbc]⟩
    rcases List.mem_cons.mp hv with rfl | hv'
    · exact le_trans (ih _ _ (List.mem_cons_self _ _)) hstep.1
    · rcases List.mem_cons.mp hv' with rfl | hv2
      · exact le_trans (ih _ _ (List.mem_cons_self _ _)) hstep.2
      · exact ih _ _ (List.mem_cons_of_mem _ hv2)

/-- `pandasMode` of a nonempty column is a member, has maximal multiplicity,
and is the least value among those of maximal multiplicity. -/
lemma pandasMode_spec (l : List String) (hl : l ≠ []) :
    pandasMode l ∈ l ∧ (∀ v ∈ l, countIn l v ≤ countIn l (pandasMode l)) ∧
    (∀ v ∈ l, countIn l v = countIn l (pandasMode l) → pandasMode l ≤ v) := by
  obtain ⟨m, hm⟩ : ∃ m, l.argmax (countIn l) = some m := by
    cases hx : l.argmax (countIn l) with
    | none => exact absurd (List.argmax_eq_none.mp hx) hl
    | some m => exact ⟨m, rfl⟩
  have hmm : m ∈ l.argmax (countIn l) := hm
  have hml : m ∈ l := List.argmax_mem hmm
  have hmax : ∀ v ∈ l, countIn l v ≤ countIn l m := fun v hv =>
    List.le_of_mem_argmax hv hmm
  have hmcand : m ∈ l.filter (fun s => l.all fun v => countIn l v ≤ countIn l s) :=
    List.mem_filter.mpr ⟨hml, List.all_eq_true.mpr fun v hv => by
      simpa using hmax v hv⟩
  obtain ⟨c, cs, hcands⟩ := List.exists_cons_of_ne_nil (List.ne_nil_of_mem hmcand)
  have hmode : pandasMode l = minString c cs := by
    unfold pandasMode
    rw [hcands]
  have hpm_cand :
      pandasMode l ∈ l.filter (fun s => l.all fun v => countIn l v ≤ countIn l s) := by
    rw [hmode, hcands]
    exact minString_mem cs c
  have hpml : pandasMode l ∈ l := (List.mem_filter.mp hpm_cand).1
  have hpmmax : ∀ v ∈ l, countIn l v ≤ countIn l (pandasMode l) := by
    have hall := (List.mem_filter.mp hpm_cand).2
    rw [List.all_eq_true] at hall
    intro v hv
    simpa using hall v hv
  refine ⟨hpml, hpmmax, fun v hv hcnt => ?_⟩
  have hvcand : v ∈ l.filter (fun s => l.all fun v => countIn l v ≤ countIn l s) :=
    List.mem_filter.mpr ⟨hv, List.all_eq_true.mpr fun w hw => by
      simp only [decide_eq_true_eq]
      exact le_trans (hpmmax w hw) (le_of_eq hcnt.symm)⟩
  rw [hcands] at hvcand
  rw [hmode]
  exact minString_le cs c v hvcand

/-- Three shots whose `usedWDT` flags are `[true, false, false]`. -/
def wdtShots : List Shot :=
  [exShot, { exShot with usedWDT := false }, { exShot with usedWDT := false }]

/-- **C4 counterexample**: the aggregation step does *not* take the mode of a
boolean parameter — it averages it.  At the selected shots `wdtShots` the
recommendation's `usedWDT` is `1/3` (the fraction of `true`), which is neither
boolean value, while the most frequent value is `false`.  And a categorical
tie `["b", "a"]` aggregates to the *smallest* modal value `"a"` (pandas
returns modes sorted), not to the first-encountered `"b"`. -/
theorem bool_params_averaged_not_mode :
    ((recommendedParams (tableOf wdtShots)).lookup "usedWDT" =
      some (.num (1 / 3))) ∧
    ((1 : ℚ) / 3 ≠ 0 ∧ (1 : ℚ) / 3 ≠ 1) ∧
    countIn ["b", "a"] "b" = countIn ["b", "a"] "a" ∧
    aggregateColumn (.catCol ["b", "a"]) = .cat "a" ∧
    ("a" : String) ≠ "b" := by
  have hab : ("a" : String) < "b" := by
    rw [String.lt_iff_toList_lt]
    decide
  refine ⟨?_, ⟨by norm_num, by norm_num⟩, by decide, ?_, by decide⟩
  · simp [recommendedParams, parameterFeatures, tableOf, wdtShots, exShot,
      aggregateColumn, listMean, List.lookup]
  · have hfilter : (["b", "a"] : List String).filter
        (fun s => (["b", "a"] : List String).all fun v =>
          countIn ["b", "a"] v ≤ countIn ["b", "a"] s) = ["b", "a"] := by decide
    simp only [aggregateColumn, pandasMode, hfilter, minString, List.foldl]
    rw [if_pos hab]

/-- **C4 (amended)**: numeric *and boolean* parameters are aggregated by the
arithmetic mean (a boolean column averages its 0/1 indicators, giving the
fraction of `true`); categorical parameters take a most frequent value, ties
broken by the smallest value (pandas mode order), not by first encounter. -/
theorem aggregation_mean_and_mode :
    (∀ l : List ℚ, aggregateColumn (.numCol l) = .num (l.sum / l.length)) ∧
    (∀ l : List Bool, aggregateColumn (.boolCol l) =
      .num ((l.map fun b => if b then (1 : ℚ) else 0).sum / l.length)) ∧
    (∀ l : List String, l ≠ [] →
      aggregateColumn (.catCol l) = .cat (pandasMode l) ∧
      pandasMode l ∈ l ∧
      (∀ v ∈ l, countIn l v ≤ countIn l (pandasMode l)) ∧
      (∀ v ∈ l, countIn l v = countIn l (pandasMode l) → pandasMode l ≤ v)) := by
  refine ⟨fun l => rfl,
    fun l => by simp [aggregateColumn, listMean, List.length_map],
    fun l hl => ?_⟩
  obtain ⟨h1, h2, h3⟩ := pandasMode_spec l hl
  exact ⟨rfl, h1, h2, h3⟩

/-- Witness for C4 (amended) on the categorical column `["b", "a", "a"]`. -/
theorem aggregation_mean_and_mode_witness :
    (["b", "a", "a"] ≠ ([] : List String)) ∧
    aggregateColumn (.catCol ["b", "a", "a"]) = .cat (pandasMode ["b", "a", "a"]) ∧
    pandasMode ["b", "a", "a"] ∈ (["b", "a", "a"] : List String) :=
  ⟨by decide,
   (aggregation_mean_and_mode.2.2 ["b", "a", "a"] (by decide)).1,
   (aggregation_mean_and_mode.2.2 ["b", "a", "a"] (by decide)).2.1⟩

/-! ### Best-trial lemmas for the ask/tell state machine (C1) -/

/-- `bestTrial` is `none` exactly when no trial is COMPLETE. -/
lemma bestTrial_eq_none_iff (l : List Trial) :
    bestTrial l = none ↔ ∀ t ∈ l, t.scoreOf = none := by
  induction l with
  | nil => simp [bestTrial]
  | cons t ts ih =>
    cases hs : t.scoreOf with
    | none =>
      simp only [bestTrial, hs]
      rw [ih]
      constructor
      · intro h u hu
        rcases List.mem_cons.mp hu with rfl | hu2
        · exact hs
        · exact h u hu2
      · intro h u hu
        exact h u (List.mem_cons_of_mem _ hu)
    | some st =>
      cases hb : bestTrial ts with
      | none =>
        simp only [bestTrial, hs, hb]
        constructor
        · intro h
          cases h
        · intro h
          have := h t (List.mem_cons_self _ _)
          rw [hs] at this
          cases this
      | some b =>
        simp only [bestTrial, hs, hb]
        constructor
        · intro h
          by_cases hlt : st < (b.scoreOf).getD 0
          · rw [if_pos hlt] at h; cases h
          · rw [if_neg hlt] at h; cases h
        · intro h
          have := h t (List.mem_cons_self _ _)
          rw [hs] at this
          cases this

/-- The trial returned by `bestTrial` on a number-sorted trial list is a
COMPLETE member whose score is maximal, and it has the least trial number
among the COMPLETE trials achieving that score. -/
lemma bestTrial_spec (l : List Trial)
    (hp : l.Pairwise fun a b => a.number < b.number) :
    ∀ b, bestTrial l = some b →
      b ∈ l ∧ (∃ sb, b.scoreOf = some sb) ∧
      ∀ t ∈ l, ∀ st, t.scoreOf = some st →
        st ≤ (b.scoreOf).getD 0 ∧
        (st = (b.scoreOf).getD 0 → b.number ≤ t.number) := by
  induction l with
  | nil =>
    intro b hb
    simp [bestTrial] at hb
  | cons t ts ih =>
    rw [List.pairwise_cons] at hp
    obtain ⟨hhead, hp2⟩ := hp
    intro b hb
    cases hs : t.scoreOf with
    | none =>
      simp only [bestTrial, hs] at hb
      obtain ⟨hmem, hsome, hmax⟩ := ih hp2 b hb
      refine ⟨List.mem_cons_of_mem _ hmem, hsome, ?_⟩
      intro u hu st hst
      rcases List.mem_cons.mp hu with rfl | hu2
      · rw [hs] at hst; cases hst
      · exact hmax u hu2 st hst
    | some st0 =>
      cases hbts : bestTrial ts with
      | none =>
        simp only [bestTrial, hs, hbts] at hb
        injection hb with hbt
        subst hbt
        have hall : ∀ u ∈ ts, u.scoreOf = none := (bestTrial_eq_none_iff ts).mp hbts
        refine ⟨List.mem_cons_self _ _, ⟨st0, hs⟩, ?_⟩
        intro u hu st hst
        rcases List.mem_cons.mp hu with rfl | hu2
        · rw [hs] at hst
          injection hst with hst2
          subst hst2
          exact ⟨by simp [hs], fun _ => le_refl _⟩
        · rw [hall u hu2] at hst; cases hst
      | some b2 =>
        obtain ⟨hmem2, ⟨sb2, hsb2⟩, hmax2⟩ := ih hp2 b2 hbts
        simp only [bestTrial, hs, hbts] at hb
        by_cases hlt : st0 < (b2.scoreOf).getD 0
        · rw [if_pos hlt] at hb
          injection hb with hbb
          subst hbb
          refine ⟨List.mem_cons_of_mem _ hmem2, ⟨sb2, hsb2⟩, ?_⟩
          intro u hu st hst
          rcases List.mem_cons.mp hu with rfl | hu2
          · rw [hs] at hst
            injection hst with hst2
            subst hst2
            refine ⟨le_of_lt hlt, fun heq => ?_⟩
            rw [heq] at hlt
            exact absurd hlt (lt_irrefl _)
          · exact hmax2 u hu2 st hst
        · rw [if_neg hlt] at hb
          injection hb with hbb
          subst hbb
          have hgd : (t.scoreOf).getD 0 = st0 := by rw [hs]; rfl
          refine ⟨List.mem_cons_self _ _, ⟨st0, hs⟩, ?_⟩
          intro u hu st hst
          rcases List.mem_cons.mp hu with rfl | hu2
          · rw [hs] at hst
            injection hst with hst2
            subst hst2
            exact ⟨by rw [hgd], fun _ => le_refl _⟩
          · obtain ⟨h1, _⟩ := hmax2 u hu2 st hst
            rw [hgd]
            exact ⟨le_trans h1 (le_of_not_lt hlt),
              fun _ => le_of_lt (hhead u hu2)⟩

/-- `tellUpdate` never changes a trial's number. -/
lemma tellUpdate_number (n : ℕ) (sc : ℚ) (t : Trial) :
    (tellUpdate n sc t).number = t.number := by
  unfold tellUpdate
  by_cases h : t.number = n
  · cases ht : t.state <;> simp [h, ht]
  · simp [h]

/-- The structural invariant maintained by ask/tell: trial numbers are below
the trial count and strictly increase along the list. -/
def StudyInv (s : Study) : Prop :=
  (∀ t ∈ s, t.number < s.length) ∧ s.Pairwise fun a b => a.number < b.number

/-- Each ask/tell operation preserves the study invariant. -/
lemma applyOp_inv (s : Study) (h : StudyInv s) (op : StudyOp) :
    StudyInv (applyOp s op) := by
  obtain ⟨hb, hp⟩ := h
  cases op with
  | ask g d tm =>
    constructor
    · intro t ht
      simp only [applyOp, askStudy, List.length_append, List.length_cons,
        List.length_nil] at ht ⊢
      rcases List.mem_append.mp ht with h1 | h1
      · have := hb t h1
        omega
      · simp only [List.mem_cons, List.not_mem_nil, or_false] at h1
        subst h1
        simp
    · simp only [applyOp, askStudy]
      rw [List.pairwise_append]
      refine ⟨hp, List.pairwise_singleton _ _, ?_⟩
      intro a ha b hbmem
      simp only [List.mem_cons, List.not_mem_nil, or_false] at hbmem
      subst hbmem
      exact hb a ha
  | tell n sc =>
    constructor
    · intro t ht
      simp only [applyOp, tellStudy, List.length_map] at ht ⊢
      obtain ⟨u, hu, rfl⟩ := List.mem_map.mp ht
      rw [tellUpdate_number]
      exact hb u hu
    · simp only [applyOp, tellStudy]
      refine List.Pairwise.map _ ?_ hp
      intro a b hab
      rw [tellUpdate_number, tellUpdate_number]
      exact hab

/-- Every study reachable by ask/tell operations satisfies the invariant. -/
lemma runOps_inv (ops : List StudyOp) : StudyInv (runOps ops) := by
  suffices key : ∀ (rest : List StudyOp) (s : Study), StudyInv s →
      StudyInv (rest.foldl applyOp s) by
    exact key ops [] ⟨by simp, List.Pairwise.nil⟩
  intro rest
  induction rest with
  | nil => intro s hs; exact hs
  | cons op rest2 ih =>
    intro s hs
    exact ih (applyOp s op) (applyOp_inv s hs op)

/-- **C1**: after any sequence of ask/tell operations, `bestTrial` is `none`
exactly when the study has no COMPLETE trial, and otherwise returns a COMPLETE
trial of maximal score carrying the least trial number among the COMPLETE
trials that achieve that score. -/
theorem bestTrial_invariant (ops : List StudyOp) :
    (bestTrial (runOps ops) = none ↔ ∀ t ∈ runOps ops, t.scoreOf = none) ∧
    ∀ b, bestTrial (runOps ops) = some b →
      b ∈ runOps ops ∧ (∃ sb, b.scoreOf = some sb) ∧
      ∀ t ∈ runOps ops, ∀ st, t.scoreOf = some st →
        st ≤ (b.scoreOf).getD 0 ∧
        (st = (b.scoreOf).getD 0 → b.number ≤ t.number) :=
  ⟨bestTrial_eq_none_iff _, fun b hb => bestTrial_spec _ (runOps_inv ops).2 b hb⟩

/-- A concrete ask/tell history: ask twice, tell trial 0 a 7 and trial 1 a 7,
then ask again. -/
def c1Ops : List StudyOp :=
  [.ask 10 18 30, .ask 11 18 28, .tell 1 7, .tell 0 7, .ask 12 18 27]

/-- Witness for C1: the concrete history has best trial number 0 (score 7 ties
with trial 1, the lower number wins), and the theorem's guarantees hold there. -/
theorem bestTrial_invariant_witness :
    bestTrial (runOps c1Ops) = some ⟨0, 10, 18, 30, .complete 7⟩ ∧
    (⟨0, 10, 18, 30, .complete 7⟩ : Trial) ∈ runOps c1Ops ∧
    (∃ sb, (⟨0, 10, 18, 30, .complete 7⟩ : Trial).scoreOf = some sb) ∧
    ∀ t ∈ runOps c1Ops, ∀ st, t.scoreOf = some st →
      st ≤ ((⟨0, 10, 18, 30, .complete 7⟩ : Trial).scoreOf).getD 0 ∧
      (st = ((⟨0, 10, 18, 30, .complete 7⟩ : Trial).scoreOf).getD 0 →
        (⟨0, 10, 18, 30, .complete 7⟩ : Trial).number ≤ t.number) :=
  ⟨by decide, (bestTrial_invariant c1Ops).2 ⟨0, 10, 18, 30, .complete 7⟩ (by decide)⟩
